import Mathlib

/-!
Verification of the Device Deployment and Diagnostics subsystem of the
cargo-skyline command-line tool.

The repository ships a single source file, `src/main.rs`, which declares the
command surface, dispatches subcommands, and maps every error of the flat
`Error` enumeration to a boundary message and a process exit status.  The
modules it dispatches into (`installer`, `ip_addr`, `tcp_listen`, `ftp`,
`error`, ...) are declared but their sources are not part of this tree, so
their behaviour is modelled from the specification where a definition below
says so in its doc comment.  Everything else is translated directly from
`src/main.rs`.
-/

/-- The flat error enumeration reported at the top-level boundary, translated
from the `match err` arms of `main` in `src/main.rs` (lines 151-176).  Payload
types follow the source: `FtpError`, `CargoError` and `IoError` carry the
underlying message rendered with `Display`, `ExitStatus` carries the `i32`
exit code of an underlying process. -/
inductive Error where
  | NoIpFound
  | BadIpAddr
  | FtpError (msg : String)
  | NoHomeDir
  | NoPathFound
  | CreateSwitchDirDenied
  | WriteIpDenied
  | NoTitleId
  | FailParseCargoStream
  | CargoError (msg : String)
  | ExitStatus (code : Int)
  | FailWriteNro
  | IoError (msg : String)
  | FailUpdateStd
  | NoStdFound
  | DownloadError
  | ZipError
  | NoNpdmFileFound
deriving DecidableEq

/-- Exit status of the process as a function of the dispatched subcommand's
result, from `main` in `src/main.rs` lines 151-179: `Ok` falls off the end of
`main` (exit 0); `Err(Error::ExitStatus(code))` calls
`std::process::exit(code)`; every other error prints its message and reaches
`std::process::exit(1)`. -/
def mainExitCode : Except Error Unit → Int
  | .ok _ => 0
  | .error (.ExitStatus code) => code
  | .error _ => 1

/-- Modelled from the spec: the constant `error::NO_IP` lives in the absent
`error` module; per the spec taxonomy, `NoIpFound` means no explicit address
was given and none is stored. -/
def NO_IP : String := "no explicit address given and none stored"

/-- Modelled from the spec: the constant `error::BAD_IP_ADDR` lives in the
absent `error` module; per the spec taxonomy, `BadIpAddr` means the supplied
address fails syntax validation. -/
def BAD_IP_ADDR : String := "supplied address fails syntax validation"

/-- Modelled from the spec: `error::no_title_id()` in the absent `error`
module prints the distinct message for an unresolvable application
identity. -/
def noTitleIdMsg : String :=
  "ERROR: no title id could be resolved from any source"

/-- The boundary message printed for each error kind, from the `match err`
arms of `main` in `src/main.rs` lines 152-176.  Terminal-colour formatting is
out of scope per the spec and dropped.  `ExitStatus` prints nothing: its arm
is `std::process::exit(code)` with no `eprintln!`, hence `none`. -/
def errorMessage : Error → Option String
  | .NoIpFound => some ("ERROR: " ++ NO_IP)
  | .BadIpAddr => some ("ERROR: " ++ BAD_IP_ADDR)
  | .FtpError msg => some ("An FTP Error Occurred: " ++ msg)
  | .NoHomeDir => some "ERROR: No home directory could be found"
  | .NoPathFound => some "ERROR: No environment variable PATH could be found."
  | .CreateSwitchDirDenied => some "ERROR: Could not create $HOME/.switch"
  | .WriteIpDenied => some "ERROR: Could not write IP to file"
  | .NoTitleId => some noTitleIdMsg
  | .FailParseCargoStream => some "Unable to parse cargo output stream"
  | .CargoError msg => some ("CargoError: " ++ msg)
  | .ExitStatus _ => none
  | .FailWriteNro => some "ERROR: Unable to convert file from ELF to NRO"
  | .IoError msg => some ("IoError: " ++ msg)
  | .FailUpdateStd =>
      some "ERROR: Could not update std due to a git-related failure"
  | .NoStdFound =>
      some ("ERROR: Could not find stdlib. Make sure you\x27re inside of " ++
        "either your workspace or a plugin folder")
  | .DownloadError =>
      some ("ERROR: Failed to download latest release of Skyline. " ++
        "An internet connection is required.")
  | .ZipError =>
      some ("ERROR: Failed to read Skyline release zip. " ++
        "Either corrupted or missing files.")
  | .NoNpdmFileFound =>
      some ("ERROR: Custom NPDM file specified in Cargo.toml not found " ++
        "at the specified path.")

/-- Discriminator of the error kind, ignoring payloads: two errors are of the
same kind exactly when they are built from the same constructor of
`Error`. -/
def kindIdx : Error → Nat
  | .NoIpFound => 0
  | .BadIpAddr => 1
  | .FtpError _ => 2
  | .NoHomeDir => 3
  | .NoPathFound => 4
  | .CreateSwitchDirDenied => 5
  | .WriteIpDenied => 6
  | .NoTitleId => 7
  | .FailParseCargoStream => 8
  | .CargoError _ => 9
  | .ExitStatus _ => 10
  | .FailWriteNro => 11
  | .IoError _ => 12
  | .FailUpdateStd => 13
  | .NoStdFound => 14
  | .DownloadError => 15
  | .ZipError => 16
  | .NoNpdmFileFound => 17

/-- `true` exactly on the `ExitStatus` kind, which carries a known underlying
process exit code. -/
def carriesExitCode : Error → Bool
  | .ExitStatus _ => true
  | _ => false

/-- C1: for every subcommand invocation, success exits with status 0; an
error carrying a known underlying process exit code propagates that code as
the exit status; every other error exits with status 1 (in particular
non-zero). -/
theorem exit_status_spec :
    mainExitCode (.ok ()) = 0 ∧
    (∀ code : Int, mainExitCode (.error (.ExitStatus code)) = code) ∧
    (∀ e : Error, carriesExitCode e = false →
      mainExitCode (.error e) = 1 ∧ mainExitCode (.error e) ≠ 0) := by
  refine ⟨rfl, fun code => rfl, fun e he => ?_⟩
  cases e <;> simp_all [mainExitCode, carriesExitCode]

/-- The propagation clauses of `exit_status_spec` hold at concrete inputs: a
success, a propagated exit code 3, and the `NoIpFound` error. -/
theorem exit_status_spec_witness :
    mainExitCode (.ok ()) = 0 ∧
    mainExitCode (.error (.ExitStatus 3)) = 3 ∧
    (mainExitCode (.error .NoIpFound) = 1 ∧
      mainExitCode (.error .NoIpFound) ≠ 0) :=
  ⟨exit_status_spec.1, exit_status_spec.2.1 3,
    exit_status_spec.2.2 Error.NoIpFound rfl⟩

/-- Two strings whose first characters differ are never equal. -/
theorem headChar_absurd (c d : Char) (hcd : c ≠ d) {s t : String} (he : s = t)
    (hs : s.data.head? = some c) (ht : t.data.head? = some d) : False := by
  rw [he, ht] at hs
  exact hcd (Option.some.inj hs).symm

/-- C6 counterexample: the `ExitStatus` error kind produces no boundary
message at all — its arm in `main` (src/main.rs line 168) is
`std::process::exit(code)` with no `eprintln!` — refuting the claim that
every kind in the taxonomy yields exactly one message. -/
theorem exit_status_produces_no_message :
    errorMessage (.ExitStatus 2) = none := rfl

/-- C6 (amended): every error kind other than `ExitStatus` produces exactly
one distinct human-readable boundary message — no two kinds share a message
and none of them is messageless, so there is no generic catch-all —
while `ExitStatus` alone prints nothing and instead propagates its carried
exit code. -/
theorem error_messages_distinct :
    (∀ code : Int, errorMessage (.ExitStatus code) = none) ∧
    (∀ e : Error, carriesExitCode e = false → (errorMessage e).isSome = true) ∧
    (∀ e1 e2 : Error, kindIdx e1 ≠ kindIdx e2 →
      errorMessage e1 ≠ errorMessage e2) := by
  refine ⟨fun code => rfl, fun e he => ?_, fun e1 e2 hk => ?_⟩
  · cases e <;> simp_all [errorMessage, carriesExitCode]
  · cases e1 <;> cases e2 <;>
      first
        | exact absurd rfl hk
        | exact fun hm => Option.noConfusion hm
        | decide
        | exact fun hm =>
            headChar_absurd 'A' 'C' (by decide) (Option.some.inj hm) rfl rfl
        | exact fun hm =>
            headChar_absurd 'C' 'A' (by decide) (Option.some.inj hm) rfl rfl
        | exact fun hm =>
            headChar_absurd 'A' 'I' (by decide) (Option.some.inj hm) rfl rfl
        | exact fun hm =>
            headChar_absurd 'I' 'A' (by decide) (Option.some.inj hm) rfl rfl
        | exact fun hm =>
            headChar_absurd 'C' 'I' (by decide) (Option.some.inj hm) rfl rfl
        | exact fun hm =>
            headChar_absurd 'I' 'C' (by decide) (Option.some.inj hm) rfl rfl
        | exact fun hm =>
            headChar_absurd 'A' 'E' (by decide) (Option.some.inj hm) rfl rfl
        | exact fun hm =>
            headChar_absurd 'E' 'A' (by decide) (Option.some.inj hm) rfl rfl
        | exact fun hm =>
            headChar_absurd 'A' 'U' (by decide) (Option.some.inj hm) rfl rfl
        | exact fun hm =>
            headChar_absurd 'U' 'A' (by decide) (Option.some.inj hm) rfl rfl
        | exact fun hm =>
            headChar_absurd 'C' 'E' (by decide) (Option.some.inj hm) rfl rfl
        | exact fun hm =>
            headChar_absurd 'E' 'C' (by decide) (Option.some.inj hm) rfl rfl
        | exact fun hm =>
            headChar_absurd 'C' 'U' (by decide) (Option.some.inj hm) rfl rfl
        | exact fun hm =>
            headChar_absurd 'U' 'C' (by decide) (Option.some.inj hm) rfl rfl
        | exact fun hm =>
            headChar_absurd 'I' 'E' (by decide) (Option.some.inj hm) rfl rfl
        | exact fun hm =>
            headChar_absurd 'E' 'I' (by decide) (Option.some.inj hm) rfl rfl
        | exact fun hm =>
            headChar_absurd 'I' 'U' (by decide) (Option.some.inj hm) rfl rfl
        | exact fun hm =>
            headChar_absurd 'U' 'I' (by decide) (Option.some.inj hm) rfl rfl

/-- The non-vacuity of `error_messages_distinct` at concrete inputs: the
`NoIpFound` kind has a message, and it differs from the message of a
concrete `FtpError`. -/
theorem error_messages_distinct_witness :
    (errorMessage Error.NoIpFound).isSome = true ∧
    errorMessage Error.NoIpFound ≠ errorMessage (Error.FtpError "550") :=
  ⟨error_messages_distinct.2.1 Error.NoIpFound rfl,
    error_messages_distinct.2.2 Error.NoIpFound (Error.FtpError "550")
      (by decide)⟩

/-- Splits a character list on the dot separator; the group boundaries are
kept even when empty, mirroring dotted-quad tokenisation. -/
def splitOnDot : List Char → List (List Char)
  | [] => [[]]
  | c :: rest =>
    if c = '.' then [] :: splitOnDot rest
    else
      match splitOnDot rest with
      | g :: gs => (c :: g) :: gs
      | [] => [[c]]

/-- Decimal value of a digit group. -/
def octetVal (p : List Char) : Nat :=
  p.foldl (fun acc c => acc * 10 + (c.toNat - 48)) 0

/-- One dotted-quad group: non-empty, at most three characters, all decimal
digits, value at most 255. -/
def isValidOctet (p : List Char) : Bool :=
  !p.isEmpty && decide (p.length ≤ 3) && p.all Char.isDigit &&
    decide (octetVal p ≤ 255)

/-- Modelled from the spec: the `ip_addr` module is absent from src/.  Address
syntax validation per the DeviceAddress invariant — here the IPv4 shape the
claims quantify over: four dot-separated, non-empty, all-digit groups of at
most three digits, each with value at most 255. -/
def isValidIpv4 (s : String) : Bool :=
  let parts := splitOnDot s.data
  parts.length == 4 && parts.all isValidOctet

/-- Modelled from the spec: `ip_addr::set_ip` (`AddressStore.set`, module
absent from src/) validates the supplied address and persists it to the fixed
per-user store; a malformed address fails with `BadIpAddr` and nothing is
written.  The store is explicit state: the function returns the call's result
paired with the store contents after the call. -/
def set_ip (address : String) (store : Option String) :
    Except Error Unit × Option String :=
  if isValidIpv4 address then (.ok (), some address)
  else (.error .BadIpAddr, store)

/-- Modelled from the spec: `AddressStore.get` (module absent from src/)
reads the persisted address; a never-configured store is the distinct
`NoIpFound` state, not an empty string. -/
def get_ip (store : Option String) : Except Error String :=
  match store with
  | some a => .ok a
  | none => .error .NoIpFound

/-- Modelled from the spec: the shared DeviceAddress resolution of Installer,
LogListener and the listing operation — an explicit inline address takes
priority and is persisted through `set_ip` (overwriting the store as a side
effect), otherwise the stored address is used, and if neither source yields a
value the operation fails with `NoIpFound`.  Returns the resolved address and
the store contents after resolution. -/
def resolveIp (ip : Option String) (store : Option String) :
    Except Error (String × Option String) :=
  match ip with
  | some i =>
    match set_ip i store with
    | (.ok _, store') => .ok (i, store')
    | (.error e, _) => .error e
  | none =>
    match store with
    | some s => .ok (s, store)
    | none => .error .NoIpFound

/-- C3: for every syntactically valid IPv4 string `s`, `AddressStore.set s`
succeeds and a subsequent `AddressStore.get` returns exactly `s`, from any
prior store state. -/
theorem set_get_roundtrip (s : String) (store : Option String)
    (h : isValidIpv4 s = true) :
    (set_ip s store).1 = .ok () ∧ get_ip (set_ip s store).2 = .ok s := by
  simp [set_ip, get_ip, h]

/-- The round-trip holds at the concrete address 192.168.1.10 starting from
an unconfigured store. -/
theorem set_get_roundtrip_witness :
    isValidIpv4 "192.168.1.10" = true ∧
    ((set_ip "192.168.1.10" none).1 = .ok () ∧
      get_ip (set_ip "192.168.1.10" none).2 = .ok "192.168.1.10") :=
  ⟨by rfl, set_get_roundtrip "192.168.1.10" none (by rfl)⟩

/-- C7: for every malformed address string `s`, `AddressStore.set s` fails
with `BadIpAddr` and never persists: the store after the failed call is
exactly what it was before. -/
theorem set_malformed_never_persists (s : String) (store : Option String)
    (h : isValidIpv4 s = false) :
    (set_ip s store).1 = .error .BadIpAddr ∧ (set_ip s store).2 = store := by
  simp [set_ip, h]

/-- The malformed-address behaviour at the concrete string "999.999.999.999"
with a previously configured store: the call fails and the old address is
untouched. -/
theorem set_malformed_never_persists_witness :
    isValidIpv4 "999.999.999.999" = false ∧
    ((set_ip "999.999.999.999" (some "10.0.0.2")).1 = .error .BadIpAddr ∧
      (set_ip "999.999.999.999" (some "10.0.0.2")).2 = some "10.0.0.2") :=
  ⟨by rfl, set_malformed_never_persists "999.999.999.999" (some "10.0.0.2")
    (by rfl)⟩

/-- Modelled from the spec: `IdentityResolver.resolve` (the `cargo_info`
lookup and its installer caller are absent from src/) — an explicit argument
wins, otherwise the value declared in the project configuration, otherwise
the distinct `NoTitleId` error. -/
def resolveTitleId (explicit : Option String) (projectConfig : Option String) :
    Except Error String :=
  match explicit with
  | some t => .ok t
  | none =>
    match projectConfig with
    | some t => .ok t
    | none => .error .NoTitleId

/-- Modelled from the spec: the device-side root under which each
application's directory tree lives. -/
def deviceAppRoot : String := "/atmosphere/contents"

/-- Modelled from the spec: the RemotePluginPath directory, derived
deterministically from the application identity as
`<device-app-root>/<identity>/plugins`. -/
def pluginDir (titleId : String) : String :=
  deviceAppRoot ++ "/" ++ titleId ++ "/plugins"

/-- Modelled from the spec: the device-loadable file name produced by the
build collaborator. -/
def pluginFileName : String := "libplugin.nro"

/-- Full remote path of an uploaded file inside the plugin directory. -/
def remotePluginPath (titleId : String) (fileName : String) : String :=
  pluginDir titleId ++ "/" ++ fileName

/-- Modelled from the spec: the build collaborator's local artifact path; the
release flag selects the target profile directory. -/
def artifactPath (release : Bool) : String :=
  "target/aarch64-skyline-switch/" ++
    (if release then "release" else "debug") ++ "/libplugin.nro"

/-- Observable network-facing actions of one operation, in order of
occurrence. -/
inductive Event where
  | connect (addr : String)
  | ensureDirReq (path : String)
  | uploadReq (localPath : String) (remotePath : String)
  | listDirReq (path : String)
  | listenConnect (addr : String)
deriving DecidableEq

/-- Modelled from the spec: the environment one invocation runs against — the
persisted address store, the project configuration's declared title id, and
the device-side outcome of each transfer step (`none` means the step
succeeds, `some msg` means the device fails it with that protocol
message). -/
structure Env where
  store : Option String
  projectTitleId : Option String
  connectFailMsg : Option String
  mkdirFailMsg : Option String
  uploadFailMsg : Option String
  listDirFailMsg : Option String

/-- Modelled from the spec: steps 2-7 of the Installer contract, after the
address has been resolved — resolve the application identity, open a
TransferSession, `ensure_dir` the plugin directory, upload the built
artifact, close.  Device-side outcomes are drawn from the environment;
protocol failures surface as `FtpError` carrying the protocol message.
Returns the step result and the ordered network events. -/
def installSession (addr : String) (titleId : Option String) (release : Bool)
    (env : Env) : Except Error Unit × List Event :=
  match resolveTitleId titleId env.projectTitleId with
  | .error e => (.error e, [])
  | .ok tid =>
    match env.connectFailMsg with
    | some m => (.error (.FtpError m), [.connect addr])
    | none =>
      match env.mkdirFailMsg with
      | some m =>
          (.error (.FtpError m),
            [.connect addr, .ensureDirReq (pluginDir tid)])
      | none =>
        match env.uploadFailMsg with
        | some m =>
            (.error (.FtpError m),
              [.connect addr, .ensureDirReq (pluginDir tid),
                .uploadReq (artifactPath release)
                  (remotePluginPath tid pluginFileName)])
        | none =>
            (.ok (),
              [.connect addr, .ensureDirReq (pluginDir tid),
                .uploadReq (artifactPath release)
                  (remotePluginPath tid pluginFileName)])

/-- Result of an installer-level operation: the operation's outcome, the
address store after the call, and the ordered network events.  For `install`
the `ok` payload is the resolved DeviceAddress (the source function returns
unit; the address is exposed so that sharing it with the chained listener can
be stated). -/
structure InstallResult where
  result : Except Error String
  store : Option String
  events : List Event

/-- Modelled from the spec: `installer::install` (module absent from src/) —
resolves the DeviceAddress first, failing with `NoIpFound` before any network
activity when neither an inline address nor a stored one exists, then runs
the transfer session. -/
def install (ip : Option String) (titleId : Option String) (release : Bool)
    (env : Env) : InstallResult :=
  match resolveIp ip env.store with
  | .error e => ⟨.error e, env.store, []⟩
  | .ok (addr, store') =>
    let s := installSession addr titleId release env
    ⟨s.1.map fun _ => addr, store', s.2⟩

/-- Network-side happenings a listen session consumes, in order. -/
inductive NetEvent where
  | connected
  | connectFailed (msg : String)
  | bytes (chunk : String)
  | remoteClose
  | cancelSignal

/-- Terminal reasons of a listen session, from the spec's LogListener state
machine. -/
inductive CloseReason where
  | remoteClosed
  | cancelled
  | connectFailure (msg : String)
deriving DecidableEq

/-- States of the LogListener, from the spec's state machine
`Idle → Connecting → WaitingForHandshake → Streaming → Closed(reason)`
(`Idle` ends as soon as `listen` is triggered, so runs start at
`Connecting`). -/
inductive ListenState where
  | connecting
  | waitingForHandshake
  | streaming
  | closed (reason : CloseReason)
deriving DecidableEq

/-- Modelled from the spec: one transition of the LogListener.  Connection
failure closes with `ConnectFailure`; before the readiness marker a remote
close yields `Closed(RemoteClosed)`; in `Streaming`, remote close and
operator cancellation close the session without error; `Closed` absorbs
everything. -/
def listenStep (isMarker : String → Bool) :
    ListenState → NetEvent → ListenState
  | .connecting, .connected => .waitingForHandshake
  | .connecting, .connectFailed m => .closed (.connectFailure m)
  | .connecting, _ => .connecting
  | .waitingForHandshake, .bytes chunk =>
      if isMarker chunk then .streaming else .waitingForHandshake
  | .waitingForHandshake, .remoteClose => .closed .remoteClosed
  | .waitingForHandshake, .cancelSignal => .closed .cancelled
  | .waitingForHandshake, _ => .waitingForHandshake
  | .streaming, .remoteClose => .closed .remoteClosed
  | .streaming, .cancelSignal => .closed .cancelled
  | .streaming, _ => .streaming
  | .closed r, _ => .closed r

/-- Runs the listener over a session's network events. -/
def runListen (isMarker : String → Bool) (s : ListenState) :
    List NetEvent → ListenState
  | [] => s
  | e :: rest => runListen isMarker (listenStep isMarker s e) rest

/-- Modelled from the spec: the result `tcp_listen::listen` reports for a
terminated session — remote closure and operator cancellation are success;
a connection failure is an error; a session that never reached a terminal
state is an interrupted connection. -/
def listenExit : ListenState → Except Error Unit
  | .closed .remoteClosed => .ok ()
  | .closed .cancelled => .ok ()
  | .closed (.connectFailure m) => .error (.IoError m)
  | _ => .error (.IoError "connection terminated unexpectedly")

/-- Result of one subcommand-level operation: outcome, the address store
after the call, and the ordered network events. -/
structure OpResult where
  result : Except Error Unit
  store : Option String
  events : List Event

/-- Modelled from the spec: `installer::install_and_run` (module absent from
src/) — calls `install` and, only on success, immediately starts the
LogListener against the same resolved DeviceAddress. -/
def install_and_run (ip : Option String) (titleId : Option String)
    (release : Bool) (env : Env) (isMarker : String → Bool)
    (script : List NetEvent) : OpResult :=
  match install ip titleId release env with
  | ⟨.ok addr, store', evs⟩ =>
      ⟨listenExit (runListen isMarker .connecting script), store',
        evs ++ [.listenConnect addr]⟩
  | ⟨.error e, store', evs⟩ => ⟨.error e, store', evs⟩

/-- Modelled from the spec: `tcp_listen::listen` (module absent from src/) —
resolves the DeviceAddress exactly as the Installer does, then opens the
diagnostics connection and consumes the session. -/
def tcp_listen (ip : Option String) (env : Env) (isMarker : String → Bool)
    (script : List NetEvent) : OpResult :=
  match resolveIp ip env.store with
  | .error e => ⟨.error e, env.store, []⟩
  | .ok (addr, store') =>
      ⟨listenExit (runListen isMarker .connecting script), store',
        [.listenConnect addr]⟩

/-- Modelled from the spec: `installer::list` (module absent from src/) —
resolves address and identity exactly as `install`, opens a TransferSession,
lists the plugin directory, and propagates `TransferFailure` unchanged. -/
def list (ip : Option String) (titleId : Option String) (env : Env) :
    OpResult :=
  match resolveIp ip env.store with
  | .error e => ⟨.error e, env.store, []⟩
  | .ok (addr, store') =>
    match resolveTitleId titleId env.projectTitleId with
    | .error e => ⟨.error e, store', []⟩
    | .ok tid =>
      match env.connectFailMsg with
      | some m => ⟨.error (.FtpError m), store', [.connect addr]⟩
      | none =>
        match env.listDirFailMsg with
        | some m =>
            ⟨.error (.FtpError m), store',
              [.connect addr, .listDirReq (pluginDir tid)]⟩
        | none =>
            ⟨.ok (), store', [.connect addr, .listDirReq (pluginDir tid)]⟩

/-- The deployment-core subcommands, translated from the `SubCommands` enum
of src/main.rs (the administrative subcommands — New, Build, UpdateStd,
SelfUpdate, Package — are the out-of-scope glue the spec excludes). -/
inductive SubCommands where
  | Install (debug : Bool) (ip : Option String) (title_id : Option String)
  | SetIp (ip : String)
  | ShowIp
  | Run (debug : Bool) (ip : Option String) (title_id : Option String)
  | Listen (ip : Option String)
  | List (ip : Option String) (title_id : Option String)

/-- Subcommand dispatch, from the `match subcommand` of `main`
(src/main.rs lines 136-148): `Install` and `Run` pass `!debug` as the
installer's release argument; `SetIp` and `ShowIp` delegate to the address
store; `Listen` and `List` to the listener and the lister. -/
def runSubcommand (cmd : SubCommands) (env : Env) (isMarker : String → Bool)
    (script : List NetEvent) : OpResult :=
  match cmd with
  | .Install debug ip title_id =>
    let r := install ip title_id (!debug) env
    ⟨r.result.map fun _ => (), r.store, r.events⟩
  | .SetIp ip => ⟨(set_ip ip env.store).1, (set_ip ip env.store).2, []⟩
  | .ShowIp => ⟨(get_ip env.store).map fun _ => (), env.store, []⟩
  | .Run debug ip title_id =>
      install_and_run ip title_id (!debug) env isMarker script
  | .Listen ip => tcp_listen ip env isMarker script
  | .List ip title_id => list ip title_id env

/-- `true` when the event list contains a listener connection. -/
def hasListenEvent (evs : List Event) : Bool :=
  evs.any fun e =>
    match e with
    | .listenConnect _ => true
    | _ => false

/-- A successful explicit-address resolution resolves to the supplied address
and persists exactly it. -/
theorem resolveIp_some_ok (b : String) (store : Option String) (a : String)
    (st : Option String) (h : resolveIp (some b) store = .ok (a, st)) :
    a = b ∧ st = some b := by
  by_cases hv : isValidIpv4 b = true
  · simp [resolveIp, set_ip, hv] at h
    exact ⟨h.1.symm, h.2.symm⟩
  · simp [resolveIp, set_ip, hv] at h

/-- The transfer session of an install never opens a listener connection. -/
theorem installSession_no_listen (addr : String) (titleId : Option String)
    (release : Bool) (env : Env) :
    hasListenEvent (installSession addr titleId release env).2 = false := by
  unfold installSession
  cases resolveTitleId titleId env.projectTitleId <;>
    cases env.connectFailMsg <;>
      cases env.mkdirFailMsg <;>
        cases env.uploadFailMsg <;> rfl

/-- An install never opens a listener connection, whatever its outcome. -/
theorem install_no_listen (ip titleId : Option String) (release : Bool)
    (env : Env) :
    hasListenEvent (install ip titleId release env).events = false := by
  unfold install
  cases hres : resolveIp ip env.store with
  | error e => rfl
  | ok p =>
    rcases p with ⟨addr, store'⟩
    exact installSession_no_listen addr titleId release env

/-- C4: an install with no inline address and an unconfigured store fails
with `NoIpFound` and performs no network action at all — its event trace is
empty, so in particular no connection attempt precedes the failure. -/
theorem install_no_ip_no_connect (titleId : Option String) (release : Bool)
    (env : Env) (h : env.store = none) :
    (install none titleId release env).result = .error .NoIpFound ∧
    (install none titleId release env).events = [] := by
  unfold install
  simp [resolveIp, h]

/-- The `NoIpFound` short-circuit at a concrete fully-unconfigured
environment. -/
theorem install_no_ip_no_connect_witness :
    (Env.mk none none none none none none).store = none ∧
    ((install none (some "0100000000010000") true
        (Env.mk none none none none none none)).result =
          .error .NoIpFound ∧
      (install none (some "0100000000010000") true
        (Env.mk none none none none none none)).events = []) :=
  ⟨rfl, install_no_ip_no_connect (some "0100000000010000") true
    (Env.mk none none none none none none) rfl⟩

/-- When an inline address was supplied and the install succeeded, the
address the install resolved is exactly the inline one. -/
theorem install_ok_inline (ip titleId : Option String) (release : Bool)
    (env : Env) (b addr : String) (hb : ip = some b)
    (h : (install ip titleId release env).result = .ok addr) : addr = b := by
  subst hb
  unfold install at h
  cases hres : resolveIp (some b) env.store with
  | error e => rw [hres] at h; simp at h
  | ok p =>
    rcases p with ⟨a, st2⟩
    rw [hres] at h
    cases hs : (installSession a titleId release env).1 with
    | error e => simp [hs, Except.map] at h
    | ok u =>
      simp [hs, Except.map] at h
      exact h ▸ (resolveIp_some_ok b env.store a st2 hres).1

/-- C2: `install_and_run` sequences the install strictly before the listener:
if the install step fails, the run reports that failure with the install's
own event trace and no listener connection is ever opened; only on success is
the LogListener started, appended after the install's events and against the
very address the install resolved — so an address supplied inline is honored
for both steps. -/
theorem install_and_run_sequencing (ip titleId : Option String)
    (release : Bool) (env : Env) (isMarker : String → Bool)
    (script : List NetEvent) :
    ((install ip titleId release env).result.isOk = false →
      (install_and_run ip titleId release env isMarker script).events =
          (install ip titleId release env).events ∧
        hasListenEvent
          (install_and_run ip titleId release env isMarker script).events =
            false) ∧
    (∀ addr, (install ip titleId release env).result = .ok addr →
      (install_and_run ip titleId release env isMarker script).events =
          (install ip titleId release env).events ++
            [Event.listenConnect addr] ∧
        ∀ b, ip = some b → addr = b) := by
  refine ⟨fun hok => ?_, fun addr haddr =>
    ⟨?_, fun b hb => install_ok_inline ip titleId release env b addr hb haddr⟩⟩
  · have hnl := install_no_listen ip titleId release env
    rcases hI : install ip titleId release env with ⟨res, st, evs⟩
    rw [hI] at hnl hok
    cases res with
    | error e =>
      simp only [install_and_run, hI]
      exact ⟨trivial, by simpa using hnl⟩
    | ok a => simp [Except.isOk, Except.toBool] at hok
  · rcases hI : install ip titleId release env with ⟨res, st, evs⟩
    rw [hI] at haddr
    cases res with
    | error e => simp at haddr
    | ok a =>
      have ha : a = addr := by simpa using haddr
      subst ha
      simp [install_and_run, hI]

/-- The sequencing holds at concrete inputs: with nothing configured the
install fails and no listener connection appears in the trace; with an inline
address and a resolvable title the run chains the listener at that address
after the install's events. -/
theorem install_and_run_sequencing_witness :
    hasListenEvent
      (install_and_run none none true (Env.mk none none none none none none)
        (fun _ => false) []).events = false ∧
    (install_and_run (some "192.168.1.10") (some "0100000000010000") true
        (Env.mk none (some "0100000000010000") none none none none)
        (fun _ => false) []).events =
      (install (some "192.168.1.10") (some "0100000000010000") true
        (Env.mk none (some "0100000000010000") none none none none)).events ++
        [Event.listenConnect "192.168.1.10"] :=
  ⟨((install_and_run_sequencing none none true
      (Env.mk none none none none none none) (fun _ => false) []).1
      (by rfl)).2,
    ((install_and_run_sequencing (some "192.168.1.10")
        (some "0100000000010000") true
        (Env.mk none (some "0100000000010000") none none none none)
        (fun _ => false) []).2 "192.168.1.10" (by rfl)).1⟩

/-- C5: a listen session that terminates because the remote closed the
connection or because the operator cancelled is not an error: the listener
reports success, the listen operation returns success whenever its address
resolution succeeded, and the command exits with status 0. -/
theorem listen_close_not_error (isMarker : String → Bool)
    (script : List NetEvent)
    (h : runListen isMarker .connecting script = .closed .remoteClosed ∨
      runListen isMarker .connecting script = .closed .cancelled) :
    listenExit (runListen isMarker .connecting script) = .ok () ∧
    mainExitCode (listenExit (runListen isMarker .connecting script)) = 0 ∧
    ∀ (ip : Option String) (env : Env) (addr : String) (st : Option String),
      resolveIp ip env.store = .ok (addr, st) →
        (tcp_listen ip env isMarker script).result = .ok () := by
  have hex : listenExit (runListen isMarker .connecting script) = .ok () := by
    rcases h with h | h <;> rw [h] <;> rfl
  refine ⟨hex, by rw [hex]; rfl, fun ip env addr st hres => ?_⟩
  simp [tcp_listen, hres, hex]

/-- The graceful-closure behaviour at a concrete session: the device accepts
the connection and closes it before sending anything; the listener ends in
`Closed(RemoteClosed)`, the operation succeeds, exit status is 0. -/
theorem listen_close_not_error_witness :
    listenExit (runListen (fun _ => false) .connecting
        [NetEvent.connected, NetEvent.remoteClose]) = .ok () ∧
    mainExitCode (listenExit (runListen (fun _ => false) .connecting
        [NetEvent.connected, NetEvent.remoteClose])) = 0 ∧
    (tcp_listen (some "192.168.1.10") (Env.mk none none none none none none)
        (fun _ => false) [NetEvent.connected, NetEvent.remoteClose]).result =
      .ok () :=
  have h := listen_close_not_error (fun _ => false)
    [NetEvent.connected, NetEvent.remoteClose] (Or.inl rfl)
  ⟨h.1, h.2.1, h.2.2 (some "192.168.1.10")
    (Env.mk none none none none none none) "192.168.1.10"
    (some "192.168.1.10") rfl⟩

/-- Chaining the listener never changes which store the run ends with: it is
the install's store. -/
theorem install_and_run_store (ip titleId : Option String) (release : Bool)
    (env : Env) (isMarker : String → Bool) (script : List NetEvent) :
    (install_and_run ip titleId release env isMarker script).store =
      (install ip titleId release env).store := by
  rcases hI : install ip titleId release env with ⟨res, st, evs⟩
  cases res <;> simp [install_and_run, hI]

/-- C8: an explicit valid address supplied to any of the higher-level
operations — install, run, listen, list — takes priority over the stored
value (resolution yields exactly the supplied address, whatever the store
held) and is written to the AddressStore as a side effect, so a subsequent
`get` returns it: the last address used becomes the new default. -/
theorem explicit_ip_becomes_default (a : String) (titleId : Option String)
    (release : Bool) (env : Env) (isMarker : String → Bool)
    (script : List NetEvent) (h : isValidIpv4 a = true) :
    resolveIp (some a) env.store = .ok (a, some a) ∧
    (install (some a) titleId release env).store = some a ∧
    (install_and_run (some a) titleId release env isMarker script).store =
      some a ∧
    (tcp_listen (some a) env isMarker script).store = some a ∧
    (list (some a) titleId env).store = some a ∧
    get_ip (some a) = .ok a := by
  have hres : resolveIp (some a) env.store = .ok (a, some a) := by
    simp [resolveIp, set_ip, h]
  have hinst : (install (some a) titleId release env).store = some a := by
    simp [install, hres]
  refine ⟨hres, hinst, ?_, ?_, ?_, rfl⟩
  · rw [install_and_run_store]; exact hinst
  · simp [tcp_listen, hres]
  · simp only [list, hres]
    cases resolveTitleId titleId env.projectTitleId <;>
      cases env.connectFailMsg <;> cases env.listDirFailMsg <;> rfl

/-- The overwrite side effect at concrete inputs: with 10.0.0.2 stored, an
operation run with inline address 192.168.1.10 leaves the store holding
192.168.1.10, and `get` now returns it. -/
theorem explicit_ip_becomes_default_witness :
    (install (some "192.168.1.10") (some "0100000000010000") true
      (Env.mk (some "10.0.0.2") none none none none none)).store =
        some "192.168.1.10" ∧
    (list (some "192.168.1.10") (some "0100000000010000")
      (Env.mk (some "10.0.0.2") none none none none none)).store =
        some "192.168.1.10" ∧
    get_ip (some "192.168.1.10") = .ok "192.168.1.10" :=
  have h := explicit_ip_becomes_default "192.168.1.10"
    (some "0100000000010000") true
    (Env.mk (some "10.0.0.2") none none none none none)
    (fun _ => false) [] (by rfl)
  ⟨h.2.1, h.2.2.2.2.1, h.2.2.2.2.2⟩

/-- A successful install has uploaded the artifact built with its release
flag. -/
theorem install_ok_upload (ip titleId : Option String) (release : Bool)
    (env : Env) (h : (install ip titleId release env).result.isOk = true) :
    ∃ rp, Event.uploadReq (artifactPath release) rp ∈
      (install ip titleId release env).events := by
  unfold install at h ⊢
  cases hres : resolveIp ip env.store with
  | error e => simp only [hres] at h; simp [Except.isOk, Except.toBool] at h
  | ok p =>
    rcases p with ⟨addr, store'⟩
    simp only [hres] at h ⊢
    unfold installSession at h ⊢
    cases htid : resolveTitleId titleId env.projectTitleId with
    | error e =>
      simp only [htid] at h
      simp [Except.isOk, Except.toBool, Except.map] at h
    | ok tid =>
      simp only [htid] at h ⊢
      cases hc : env.connectFailMsg with
      | some m =>
        simp only [hc] at h
        simp [Except.isOk, Except.toBool, Except.map] at h
      | none =>
        simp only [hc] at h ⊢
        cases hm : env.mkdirFailMsg with
        | some m =>
          simp only [hm] at h
          simp [Except.isOk, Except.toBool, Except.map] at h
        | none =>
          simp only [hm] at h ⊢
          cases hu : env.uploadFailMsg with
          | some m =>
            simp only [hu] at h
            simp [Except.isOk, Except.toBool, Except.map] at h
          | none =>
            simp only [hu]
            exact ⟨remotePluginPath tid pluginFileName, by simp⟩

/-- C10: the `Install` and `Run` subcommands invoke the installer with the
boolean negation of the `--debug` flag as its release argument: dispatch
passes `!debug` through unchanged, and on a successful install the uploaded
artifact comes from the release profile directory exactly when `--debug` was
omitted and from the debug profile directory when it was passed. -/
theorem debug_negation_selects_profile (d : Bool) (ip titleId : Option String)
    (env : Env) (isMarker : String → Bool) (script : List NetEvent) :
    runSubcommand (.Install d ip titleId) env isMarker script =
      ⟨(install ip titleId (!d) env).result.map fun _ => (),
        (install ip titleId (!d) env).store,
        (install ip titleId (!d) env).events⟩ ∧
    runSubcommand (.Run d ip titleId) env isMarker script =
      install_and_run ip titleId (!d) env isMarker script ∧
    ((install ip titleId (!d) env).result.isOk = true →
      ∃ rp, Event.uploadReq (artifactPath (!d)) rp ∈
        (install ip titleId (!d) env).events) ∧
    artifactPath true =
      "target/aarch64-skyline-switch/release/libplugin.nro" ∧
    artifactPath false =
      "target/aarch64-skyline-switch/debug/libplugin.nro" :=
  ⟨rfl, rfl, install_ok_upload ip titleId (!d) env, rfl, rfl⟩

/-- The negation at a concrete successful run: with `--debug` omitted
(`d = false`) the uploaded artifact is the release build. -/
theorem debug_negation_selects_profile_witness :
    ∃ rp, Event.uploadReq (artifactPath (!false)) rp ∈
      (install (some "192.168.1.10") (some "0100000000010000") (!false)
        (Env.mk none none none none none none)).events :=
  (debug_negation_selects_profile false (some "192.168.1.10")
    (some "0100000000010000") (Env.mk none none none none none none)
    (fun _ => false) []).2.2.1 (by rfl)

/-- Modelled from the spec: the device-side state a TransferSession acts on —
the set of directories that exist, plus the device's response to a creation
attempt at each path (`none` means creation succeeds, `some msg` means the
device refuses with that protocol message, e.g. permission denied or
path too long). -/
structure RemoteFs where
  dirs : List String
  mkdirFailMsg : String → Option String

/-- Modelled from the spec: `TransferClient.ensure_dir` (the `ftp` module is
absent from src/) — attempts directory creation; a directory that already
exists is success, any other device-side failure surfaces as `FtpError`
carrying the protocol message verbatim. -/
def ensure_dir (fs : RemoteFs) (path : String) : Except Error RemoteFs :=
  if fs.dirs.contains path then .ok fs
  else
    match fs.mkdirFailMsg path with
    | some m => .error (.FtpError m)
    | none => .ok { fs with dirs := path :: fs.dirs }

/-- C9 counterexample: two consecutive `ensure_dir` calls on the same open
session do not always succeed — on a device that refuses the creation
(permission denied), already the first call fails, refuting the unconditional
claim.  The spec itself requires such failures to surface as
`TransferFailure`. -/
theorem ensure_dir_can_fail :
    ensure_dir (RemoteFs.mk [] fun _ => some "550 Permission denied")
        "/atmosphere/contents/0100000000010000/plugins" =
      .error (.FtpError "550 Permission denied") := rfl

/-- C9 (amended): `ensure_dir` is idempotent — whenever a call succeeds,
calling it again on the same path succeeds with the session state unchanged,
because "directory already exists" is treated as success. -/
theorem ensure_dir_idempotent (fs fs' : RemoteFs) (path : String)
    (h : ensure_dir fs path = .ok fs') : ensure_dir fs' path = .ok fs' := by
  unfold ensure_dir at h ⊢
  by_cases hc : fs.dirs.contains path = true
  · rw [if_pos hc] at h
    have hfs : fs = fs' := Except.ok.inj h
    subst hfs
    rw [if_pos hc]
  · rw [if_neg (by simpa using hc)] at h
    cases hm : fs.mkdirFailMsg path with
    | some m => rw [hm] at h; exact absurd h (by simp)
    | none =>
      rw [hm] at h
      have hfs : fs' = { fs with dirs := path :: fs.dirs } :=
        (Except.ok.inj h).symm
      subst hfs
      rw [if_pos (by simp [List.contains_cons])]

/-- Idempotence at a concrete session: creating `/plugins` on an empty
device succeeds, and `ensure_dir` on the resulting state succeeds again with
the same state. -/
theorem ensure_dir_idempotent_witness :
    ensure_dir (RemoteFs.mk ["/plugins"] fun _ => none) "/plugins" =
      .ok (RemoteFs.mk ["/plugins"] fun _ => none) :=
  ensure_dir_idempotent (RemoteFs.mk [] fun _ => none)
    (RemoteFs.mk ["/plugins"] fun _ => none) "/plugins" rfl
